import Mathlib

/-!
Shallow embedding of `src/core/framework/llm/mock.py` (class `MockLLMProvider`)
together with the data model it operates on.  The `Tool` and `LLMResponse`
shapes come from `framework/llm/provider.py`, which is not part of the sources
here, so they are modelled from the spec (section 3).  Python strings are
modelled as Lean `String` (both count code points), Python integers as `Nat`
where the source values are non-negative, Python `//` on non-negative
integers as `Nat` division, and Python dictionaries for messages as records
with optional fields.
-/

/-- The single-quote character, written by code point to keep literals plain. -/
def squote : Char := Char.ofNat 39

/-- The double-quote character. -/
def dquote : Char := Char.ofNat 34

/-- The backslash character. -/
def bslash : Char := Char.ofNat 92

/-- Python substring containment `needle in hay`: `needle` occurs contiguously
inside `hay`. -/
def pyIn (needle hay : String) : Bool :=
  decide (needle.data <:+: hay.data)

/-- Python truthiness of an optional string: `None` and the empty string are
falsy, every other string is truthy. -/
def pyTruthyOptStr : Option String → Bool
  | none => false
  | some s => decide (s ≠ "")

/-- Python `str.lower`, character by character (agrees with CPython on the
ASCII text the mock handles). -/
def pyLower (s : String) : String :=
  String.mk (s.data.map Char.toLower)

/-- Python `sep.join(parts)`. -/
def pyJoin (sep : String) : List String → String
  | [] => ""
  | [x] => x
  | x :: y :: xs => x ++ sep ++ pyJoin sep (y :: xs)

/-- Python `repr` of one character inside a string literal rendered with quote
character `q`: the backslash and the quote character are escaped, common
control characters use their short escapes, remaining control characters use a
hex escape, and other characters are kept verbatim (an approximation of the
CPython printability rule, which is exact on printable ASCII). -/
def pyReprChar (q c : Char) : String :=
  if c = bslash then String.mk [bslash, bslash]
  else if c = q then String.mk [bslash, q]
  else if c = '\n' then String.mk [bslash, 'n']
  else if c = '\r' then String.mk [bslash, 'r']
  else if c = '\t' then String.mk [bslash, 't']
  else if c.toNat < 32 ∨ c.toNat = 127 then
    String.mk [bslash, 'x', Nat.digitChar (c.toNat / 16), Nat.digitChar (c.toNat % 16)]
  else String.mk [c]

/-- Quote character CPython `repr` picks for a string: a single quote, unless
the string contains a single quote but no double quote. -/
def pyReprQuote (s : String) : Char :=
  if s.data.contains squote && !(s.data.contains dquote) then dquote else squote

/-- Concatenation of a list of strings, Python `"".join`. -/
def concatStrings : List String → String
  | [] => ""
  | x :: xs => x ++ concatStrings xs

/-- Python `repr` of a string: the chosen quote around the escaped characters. -/
def pyReprStr (s : String) : String :=
  let q := pyReprQuote s
  String.mk [q] ++ concatStrings (s.data.map (pyReprChar q)) ++ String.mk [q]

/-- Python `str` of a list of strings, as in `f"{tool_names}"`: the bracketed,
comma-separated `repr`s of the elements. -/
def pyStrList (l : List String) : String :=
  "[" ++ pyJoin ", " (l.map pyReprStr) ++ "]"

/-- One conversation turn, a Python `dict[str, Any]` in the source.  The mock
only reads the keys "role" and "content", so the model keeps exactly those,
optional because `dict.get` is used with defaults.  The source applies `str`
to the content it extracts; the model takes contents that are already strings. -/
structure Message where
  role : Option String
  content : Option String
  deriving DecidableEq

/-- Python `str` of one message dictionary (keys in insertion order, modelled
as "role" then "content", each present key rendered as `repr`ed key and value). -/
def pyStrMessage (m : Message) : String :=
  let entries :=
    (match m.role with
      | some r => ["\x27role\x27: " ++ pyReprStr r]
      | none => []) ++
    (match m.content with
      | some c => ["\x27content\x27: " ++ pyReprStr c]
      | none => [])
  "\x7b" ++ pyJoin ", " entries ++ "\x7d"

/-- Python `str(messages)` for the message list, used by the token estimate. -/
def pyStrMessages (messages : List Message) : String :=
  "[" ++ pyJoin ", " (messages.map pyStrMessage) ++ "]"

/-- Modelled from the spec: the `Tool` descriptor imported from
`framework/llm/provider.py`, which is not among the sources.  Section 3 gives
it a `name` plus an opaque argument schema that the mock never reads. -/
structure Tool where
  name : String
  schema : String
  deriving DecidableEq

/-- Diagnostic metadata bag the mock places in `raw_response`: `complete`
passes a mock flag and the call count, `complete_with_tools` passes a mock
flag and the offered tool names. -/
structure RawResponse where
  mock : Bool
  call_count : Option Nat
  tools_available : Option (List String)
  deriving DecidableEq

/-- Modelled from the spec: the `LLMResponse` result shape imported from
`framework/llm/provider.py`, which is not among the sources.  Section 3 lists
`content`, `model`, non-negative token estimates, `stop_reason`, and an opaque
`raw_response` bag. -/
structure LLMResponse where
  content : String
  model : String
  input_tokens : Nat
  output_tokens : Nat
  stop_reason : String
  raw_response : RawResponse
  deriving DecidableEq

/-- State of a `MockLLMProvider` instance: the constructor arguments plus the
mutable call counter. -/
structure MockLLMProvider where
  model : String
  default_response : Option String
  call_count : Nat
  deriving DecidableEq

/-- Constructor `MockLLMProvider.__init__`: stores the model name and optional
default response and zeroes the call counter. -/
def MockLLMProvider.init (model : String := "mock-model")
    (default_response : Option String := none) : MockLLMProvider :=
  ⟨model, default_response, 0⟩

/-- Canned response for the "search" category. -/
def searchResponse : String :=
  "[Mock] Search results: Found 3 relevant sources. " ++
  "1) Example article, 2) Research paper, 3) Documentation."

/-- Canned response for the "summar" category. -/
def summarResponse : String :=
  "[Mock] Summary: Key points extracted from the content. " ++
  "Main findings and conclusions included."

/-- Canned response for the "parse"/"extract" category. -/
def parseResponse : String :=
  "[Mock] Parsed: topic=\x27example\x27, keywords=[\x27mock\x27, \x27test\x27]"

/-- Canned response for the "evaluat"/"quality" category. -/
def evaluatResponse : String :=
  "[Mock] Evaluation: Score 85/100. Quality: Good. Status: Approved."

/-- Canned response for the "write"/"report" category. -/
def writeResponse : String :=
  "[Mock] Report generated with introduction, findings, " ++
  "and conclusion sections."

/-- Fallback response when no keyword matches; it embeds the current call
count (`str` of a non-negative Python integer is `Nat.repr`). -/
def fallbackResponse (call_count : Nat) : String :=
  "[Mock] Processed request (call #" ++ Nat.repr call_count ++ "). " ++
  "This is a mock response for testing without API calls."

/-- The fixed JSON object `complete` returns when `json_mode` is set and no
truthy default response is configured. -/
def jsonModeContent : String :=
  "\x7b\"status\": \"success\", \"mock\": true, \"message\": \"Mock response\"\x7d"

/-- Method `_generate_contextual_response`: lowercase the concatenation of the
last user message and the system string, then pick the first matching canned
category, in source order.  The source reads `self._call_count` (already
incremented) for the fallback; here that value is passed explicitly. -/
def generate_contextual_response (call_count : Nat) (user_message system : String) : String :=
  let combined := pyLower (user_message ++ system)
  if pyIn "search" combined then searchResponse
  else if pyIn "summar" combined then summarResponse
  else if pyIn "parse" combined || pyIn "extract" combined then parseResponse
  else if pyIn "evaluat" combined || pyIn "quality" combined then evaluatResponse
  else if pyIn "write" combined || pyIn "report" combined then writeResponse
  else fallbackResponse call_count

/-- Context extraction in `complete`: scan `messages` from the end for the
first message whose role is "user" and take `str(msg.get("content", ""))`;
the empty string when no message matches. -/
def lastUserMessage (messages : List Message) : String :=
  match messages.reverse.find? (fun m => m.role == some "user") with
  | some m => m.content.getD ""
  | none => ""

/-- Context extraction in `complete_with_tools`: as in `complete` but the
content is truncated to its first 100 characters (`[:100]`). -/
def lastUserMessageTrunc (messages : List Message) : String :=
  match messages.reverse.find? (fun m => m.role == some "user") with
  | some m => (m.content.getD "").take 100
  | none => ""

/-- Method `MockLLMProvider.complete`.  Returns the response together with the
updated provider state (the incremented call counter).  The `tools`,
`max_tokens` and `response_format` parameters are accepted and ignored, as in
the source. -/
def MockLLMProvider.complete (self : MockLLMProvider) (messages : List Message)
    (system : String := "") (tools : Option (List Tool) := none)
    (max_tokens : Nat := 1024) (response_format : Option String := none)
    (json_mode : Bool := false) : LLMResponse × MockLLMProvider :=
  let incremented : MockLLMProvider := { self with call_count := self.call_count + 1 }
  let last_message := lastUserMessage messages
  let content :=
    if pyTruthyOptStr self.default_response then self.default_response.getD ""
    else if json_mode then jsonModeContent
    else generate_contextual_response incremented.call_count last_message system
  (⟨content, self.model, (pyStrMessages messages).length / 4, content.length / 4,
    "end_turn", ⟨true, some incremented.call_count, none⟩⟩, incremented)

/-- Method `MockLLMProvider.complete_with_tools`.  Acknowledges the offered
tool names without invoking `tool_executor`; the executor and the iteration
bound are accepted and ignored, as in the source. -/
def MockLLMProvider.complete_with_tools (self : MockLLMProvider)
    (messages : List Message) (system : String) (tools : List Tool)
    (tool_executor : String → String → String) (max_iterations : Nat := 10) :
    LLMResponse × MockLLMProvider :=
  let incremented : MockLLMProvider := { self with call_count := self.call_count + 1 }
  let last_message := lastUserMessageTrunc messages
  let tool_names := if tools.isEmpty then [] else tools.map Tool.name
  let content :=
    "[Mock] Processed with tools: " ++ pyStrList tool_names ++
    ". Context: " ++ last_message ++ "..."
  (⟨content, self.model, (pyStrMessages messages).length / 4, content.length / 4,
    "end_turn", ⟨true, none, some tool_names⟩⟩, incremented)

/-- Method `MockLLMProvider.reset`: zero the call counter. -/
def MockLLMProvider.reset (self : MockLLMProvider) : MockLLMProvider :=
  { self with call_count := 0 }

/-- One top-level invocation of a contract operation, used to reason about
sequences of calls against one provider instance. -/
inductive ProviderCall where
  | completeCall (messages : List Message) (system : String)
      (tools : Option (List Tool)) (max_tokens : Nat)
      (response_format : Option String) (json_mode : Bool)
  | completeWithToolsCall (messages : List Message) (system : String)
      (tools : List Tool) (tool_executor : String → String → String)
      (max_iterations : Nat)

/-- State left behind by one contract operation. -/
def runCall (self : MockLLMProvider) : ProviderCall → MockLLMProvider
  | .completeCall ms sys ts mt rf jm => (self.complete ms sys ts mt rf jm).2
  | .completeWithToolsCall ms sys ts te mi => (self.complete_with_tools ms sys ts te mi).2

/-- State left behind by a sequence of contract operations. -/
def runCalls (self : MockLLMProvider) (calls : List ProviderCall) : MockLLMProvider :=
  calls.foldl runCall self

/-- The priority table of spec section 4.2, in its listed order: trigger
substrings of each category paired with the canned response of the category. -/
def specCategories : List (List String × String) :=
  [(["search"], searchResponse),
   (["summar"], summarResponse),
   (["parse", "extract"], parseResponse),
   (["evaluat", "quality"], evaluatResponse),
   (["write", "report"], writeResponse)]

/-- Classification as the spec words it: the first category of the priority
table one of whose substrings occurs in the combined lowercase text wins; with
no match, the fallback referencing the current call count is returned. -/
def specClassify (call_count : Nat) (user_message system : String) : String :=
  let combined := pyLower (user_message ++ system)
  match specCategories.find? (fun cat => cat.1.any (fun kw => pyIn kw combined)) with
  | some cat => cat.2
  | none => fallbackResponse call_count

/-- Disjunction of all trigger-substring tests of the classifier, i.e. the
input is not in the fallback branch. -/
def matchesKeyword (combined : String) : Bool :=
  pyIn "search" combined || pyIn "summar" combined ||
  pyIn "parse" combined || pyIn "extract" combined ||
  pyIn "evaluat" combined || pyIn "quality" combined ||
  pyIn "write" combined || pyIn "report" combined

/-- Characters that CPython `repr` keeps verbatim and that do not influence
the quote choice: printable ASCII other than the backslash and both quotes. -/
def plainChar (c : Char) : Bool :=
  32 ≤ c.toNat && c.toNat < 127 && c ≠ bslash && c ≠ squote && c ≠ dquote

/-- Strings whose `repr` is the string itself between single quotes. -/
def plainName (s : String) : Bool :=
  s.data.all plainChar

/-- JSON whitespace (RFC 8259). -/
def jsonWs (c : Char) : Bool :=
  c = ' ' || c = '\t' || c = '\n' || c = '\r'

/-- Drop leading JSON whitespace. -/
def skipWs : List Char → List Char
  | [] => []
  | c :: cs => if jsonWs c then skipWs cs else c :: cs

/-- Hexadecimal digit test, for JSON unicode escapes. -/
def isHexDigit (c : Char) : Bool :=
  c.isDigit || ('a' ≤ c && c ≤ 'f') || ('A' ≤ c && c ≤ 'F')

/-- Parse the remainder of a JSON string literal, after its opening quote;
returns the input after the closing quote when the literal is well formed. -/
def parseStringRest : Nat → List Char → Option (List Char)
  | 0, _ => none
  | _, [] => none
  | fuel + 1, c :: cs =>
    if c = dquote then some cs
    else if c = bslash then
      match cs with
      | [] => none
      | e :: cs2 =>
        if e = 'u' then
          match cs2 with
          | a :: b :: c3 :: d :: cs3 =>
            if isHexDigit a && isHexDigit b && isHexDigit c3 && isHexDigit d then
              parseStringRest fuel cs3
            else none
          | _ => none
        else if e = dquote || e = bslash || e = '/' || e = 'b' || e = 'f' ||
            e = 'n' || e = 'r' || e = 't' then
          parseStringRest fuel cs2
        else none
    else if c.toNat < 32 then none
    else parseStringRest fuel cs

/-- Parse the optional exponent part of a JSON number. -/
def parseExpPart (cs : List Char) : Option (List Char) :=
  match cs with
  | e :: cs2 =>
    if e = 'e' || e = 'E' then
      let cs3 := match cs2 with
        | s :: cs4 => if s = '+' || s = '-' then cs4 else cs2
        | [] => cs2
      match cs3.span Char.isDigit with
      | ([], _) => none
      | (_, rest) => some rest
    else some (e :: cs2)
  | [] => some []

/-- Parse the optional fraction part of a JSON number, then the exponent. -/
def parseFracPart (cs : List Char) : Option (List Char) :=
  match cs with
  | c :: cs2 =>
    if c = '.' then
      match cs2.span Char.isDigit with
      | ([], _) => none
      | (_, rest) => parseExpPart rest
    else parseExpPart (c :: cs2)
  | [] => parseExpPart []

/-- Parse a JSON number after its optional minus sign: an integer part that is
`0` or starts with a nonzero digit, then fraction and exponent. -/
def parseNumberRest (cs : List Char) : Option (List Char) :=
  match cs with
  | [] => none
  | c :: cs2 =>
    if c = '0' then parseFracPart cs2
    else if c.isDigit then parseFracPart (cs2.dropWhile Char.isDigit)
    else none

/-- Match a fixed literal at the head of the input. -/
def dropLit : List Char → List Char → Option (List Char)
  | [], cs => some cs
  | _ :: _, [] => none
  | l :: ls, c :: cs => if c = l then dropLit ls cs else none

mutual

/-- Parse one JSON value (fuelled recursive descent; the fuel only needs to
dominate the nesting depth, and callers pass the input length). -/
def parseValue : Nat → List Char → Option (List Char)
  | 0, _ => none
  | fuel + 1, cs =>
    match skipWs cs with
    | [] => none
    | c :: cs2 =>
      if c = dquote then parseStringRest (cs2.length + 1) cs2
      else if c = Char.ofNat 123 then parseObjectRest fuel cs2
      else if c = '[' then parseArrayRest fuel cs2
      else if c = '-' then parseNumberRest cs2
      else if c.isDigit then parseNumberRest (c :: cs2)
      else
        match dropLit ['t', 'r', 'u', 'e'] (c :: cs2) with
        | some rest => some rest
        | none =>
          match dropLit ['f', 'a', 'l', 's', 'e'] (c :: cs2) with
          | some rest => some rest
          | none => dropLit ['n', 'u', 'l', 'l'] (c :: cs2)

/-- Parse a JSON object after its opening brace. -/
def parseObjectRest : Nat → List Char → Option (List Char)
  | 0, _ => none
  | fuel + 1, cs =>
    match skipWs cs with
    | [] => none
    | c :: cs2 =>
      if c = Char.ofNat 125 then some cs2
      else parseMembers fuel (c :: cs2)

/-- Parse one or more `key : value` members, then the closing brace. -/
def parseMembers : Nat → List Char → Option (List Char)
  | 0, _ => none
  | fuel + 1, cs =>
    match skipWs cs with
    | [] => none
    | c :: cs2 =>
      if c = dquote then
        match parseStringRest (cs2.length + 1) cs2 with
        | none => none
        | some afterKey =>
          match skipWs afterKey with
          | [] => none
          | k :: afterColon =>
            if k = ':' then
              match parseValue fuel afterColon with
              | none => none
              | some afterVal =>
                match skipWs afterVal with
                | [] => none
                | s :: rest =>
                  if s = ',' then parseMembers fuel rest
                  else if s = Char.ofNat 125 then some rest
                  else none
            else none
      else none

/-- Parse a JSON array after its opening bracket. -/
def parseArrayRest : Nat → List Char → Option (List Char)
  | 0, _ => none
  | fuel + 1, cs =>
    match skipWs cs with
    | [] => none
    | c :: cs2 =>
      if c = ']' then some cs2
      else
        match parseValue fuel (c :: cs2) with
        | none => none
        | some rest => parseElemsRest fuel rest

/-- Parse the separators and further elements of a JSON array, then the
closing bracket. -/
def parseElemsRest : Nat → List Char → Option (List Char)
  | 0, _ => none
  | fuel + 1, cs =>
    match skipWs cs with
    | [] => none
    | c :: cs2 =>
      if c = ']' then some cs2
      else if c = ',' then
        match parseValue fuel cs2 with
        | none => none
        | some rest => parseElemsRest fuel rest
      else none

end

/-- Syntactic JSON validity of a text (RFC 8259): one JSON value surrounded by
whitespace and nothing else. -/
def isValidJson (s : String) : Bool :=
  match parseValue (s.length + 1) s.data with
  | some rest => (skipWs rest).isEmpty
  | none => false

theorem toDigitsCore_shift (b : Nat) :
    ∀ (fuel n : Nat) (ds : List Char),
      Nat.toDigitsCore b fuel n ds = Nat.toDigitsCore b fuel n [] ++ ds := by
  intro fuel
  induction fuel with
  | zero => intro n ds; simp [Nat.toDigitsCore]
  | succ f ih =>
    intro n ds
    simp only [Nat.toDigitsCore]
    by_cases h : n / b = 0
    · simp [h]
    · simp only [h, if_neg, if_false]
      rw [ih (n / b) ((n % b).digitChar :: ds), ih (n / b) [(n % b).digitChar]]
      simp

theorem toDigits_getLast (n : Nat) :
    (Nat.toDigits 10 n).getLast? = some (Nat.digitChar (n % 10)) := by
  show (Nat.toDigitsCore 10 (n + 1) n []).getLast? = _
  simp only [Nat.toDigitsCore]
  by_cases h : n / 10 = 0
  · simp [h]
  · simp only [h, if_neg, if_false]
    rw [toDigitsCore_shift]
    simp

theorem digitChar_inj_lt10 : ∀ a ∈ List.range 10, ∀ b ∈ List.range 10,
    a ≠ b → Nat.digitChar a ≠ Nat.digitChar b := by decide

theorem repr_ne_of_mod10_ne {m n : Nat} (h : m % 10 ≠ n % 10) :
    Nat.repr m ≠ Nat.repr n := by
  intro he
  have hd : Nat.toDigits 10 m = Nat.toDigits 10 n := by
    have h2 := congrArg String.data he
    simpa [Nat.repr, List.asString] using h2
  have h1 := toDigits_getLast m
  rw [hd, toDigits_getLast n, Option.some.injEq] at h1
  exact digitChar_inj_lt10 (n % 10) (List.mem_range.mpr (Nat.mod_lt _ (by norm_num)))
    (m % 10) (List.mem_range.mpr (Nat.mod_lt _ (by norm_num))) (fun hx => h hx.symm) h1

theorem fallbackResponse_ne {a b : Nat} (h : a % 10 ≠ b % 10) :
    fallbackResponse a ≠ fallbackResponse b := by
  intro he
  have h2 := congrArg String.data he
  simp only [fallbackResponse, String.data_append] at h2
  exact repr_ne_of_mod10_ne h (String.ext (List.append_cancel_left
    (List.append_cancel_right (List.append_cancel_right h2))))

theorem fallbackResponse_ne_empty (cc : Nat) : fallbackResponse cc ≠ "" := by
  intro he
  have h2 := congrArg String.length he
  rw [fallbackResponse, String.length_append, String.length_append,
    String.length_append] at h2
  have h4 : ("[Mock] Processed request (call #" : String).length = 32 := by decide
  have h5 : ("" : String).length = 0 := by decide
  omega

theorem gen_eq_of_matches {u s : String}
    (hm : matchesKeyword (pyLower (u ++ s)) = true) (a b : Nat) :
    generate_contextual_response a u s = generate_contextual_response b u s := by
  simp only [matchesKeyword, Bool.or_eq_true] at hm
  simp only [generate_contextual_response]
  split_ifs with h1 h2 h3 h4 h5 <;> try rfl
  exfalso
  simp only [Bool.or_eq_true, not_or, Bool.not_eq_true] at h3 h4 h5
  rcases hm with ((((((h | h) | h) | h) | h) | h) | h) | h <;> simp_all

theorem gen_eq_fallback {u s : String}
    (hm : matchesKeyword (pyLower (u ++ s)) = false) (cc : Nat) :
    generate_contextual_response cc u s = fallbackResponse cc := by
  simp only [matchesKeyword, Bool.or_eq_false_iff] at hm
  obtain ⟨⟨⟨⟨⟨⟨⟨hs, hsu⟩, hp⟩, he⟩, hev⟩, hq⟩, hw⟩, hr⟩ := hm
  simp [generate_contextual_response, hs, hsu, hp, he, hev, hq, hw, hr]

theorem gen_ne_empty (cc : Nat) (u s : String) :
    generate_contextual_response cc u s ≠ "" := by
  simp only [generate_contextual_response]
  split_ifs <;> first
    | exact fallbackResponse_ne_empty cc
    | decide

theorem runCall_call_count (self : MockLLMProvider) (c : ProviderCall) :
    (runCall self c).call_count = self.call_count + 1 := by
  cases c <;> rfl

theorem runCalls_call_count (self : MockLLMProvider) (calls : List ProviderCall) :
    (runCalls self calls).call_count = self.call_count + calls.length := by
  induction calls generalizing self with
  | nil => rfl
  | cons c cs ih =>
    show (runCalls (runCall self c) cs).call_count = _
    rw [ih, runCall_call_count]
    simp only [List.length_cons]
    omega

theorem pyReprChar_plain {c : Char} (h : plainChar c = true) :
    pyReprChar squote c = String.mk [c] := by
  simp only [plainChar, Bool.and_eq_true, decide_eq_true_eq] at h
  obtain ⟨⟨⟨⟨h1, h2⟩, h3⟩, h4⟩, h5⟩ := h
  have hn : c ≠ '\n' := by intro hc; rw [hc] at h1; exact absurd h1 (by decide)
  have hr : c ≠ '\r' := by intro hc; rw [hc] at h1; exact absurd h1 (by decide)
  have ht : c ≠ '\t' := by intro hc; rw [hc] at h1; exact absurd h1 (by decide)
  have hx : ¬(c.toNat < 32 ∨ c.toNat = 127) := by omega
  simp only [pyReprChar, if_neg h3, if_neg h4, if_neg hn, if_neg hr, if_neg ht, if_neg hx]

theorem concatStrings_plain : ∀ l : List Char, (∀ c ∈ l, plainChar c = true) →
    concatStrings (l.map (pyReprChar squote)) = String.mk l := by
  intro l
  induction l with
  | nil => intro _; rfl
  | cons c cs ih =>
    intro h
    show pyReprChar squote c ++ concatStrings (cs.map (pyReprChar squote)) = _
    rw [pyReprChar_plain (h c (by simp)), ih (fun d hd => h d (by simp [hd]))]
    rfl

theorem pyReprStr_plain {s : String} (h : plainName s = true) :
    (pyReprStr s).data = squote :: (s.data ++ [squote]) := by
  simp only [plainName, List.all_eq_true] at h
  have hq : pyReprQuote s = squote := by
    have hc : squote ∉ s.data := by
      intro hm
      have := h squote hm
      exact absurd this (by decide)
    simp [pyReprQuote, hc]
  simp only [pyReprStr, hq, concatStrings_plain s.data (fun c hc =>
    by simpa using h c hc)]
  rfl

theorem infix_pyJoin {a : String} (sep : String) : ∀ {l : List String}, a ∈ l →
    a.data <:+: (pyJoin sep l).data := by
  intro l
  induction l with
  | nil => intro h; cases h
  | cons x xs ih =>
    intro h
    cases xs with
    | nil =>
      have hx : a = x := by simpa using h
      subst hx
      exact List.infix_refl _
    | cons y ys =>
      rcases List.mem_cons.mp h with hax | hmem
      · subst hax
        refine ⟨[], (sep ++ pyJoin sep (y :: ys)).data, ?_⟩
        show a.data ++ _ = _
        simp [pyJoin, String.data_append]
      · have h2 := ih hmem
        refine h2.trans ⟨(x ++ sep).data, [], ?_⟩
        simp [pyJoin, String.data_append]

/-- C1 (counterexample): with the override configured as the empty string and
`json_mode` set, the returned content is the fixed JSON object, not the
configured override — so the content does not equal the override for every
input on which an override was configured at construction. -/
theorem C1_counterexample :
    (MockLLMProvider.mk "mock-model" (some "") 0).default_response = some ""
    ∧ ((MockLLMProvider.mk "mock-model" (some "") 0).complete [] "" none 1024 none
        true).1.content ≠ "" := by
  exact ⟨rfl, by decide⟩

/-- C1 (amended): if the configured override response is non-empty, then for
every input to `complete` the returned content equals the override, regardless
of `json_mode`, message content, or system string. -/
theorem C1_nonempty_override_wins :
    ∀ (self : MockLLMProvider) (d : String) (ms : List Message) (sys : String)
      (ts : Option (List Tool)) (mt : Nat) (rf : Option String) (jm : Bool),
      self.default_response = some d → d ≠ "" →
      (self.complete ms sys ts mt rf jm).1.content = d := by
  intro self d ms sys ts mt rf jm hd hne
  simp [MockLLMProvider.complete, hd, pyTruthyOptStr, hne]

/-- Witness for C1: a provider constructed with the override "fixed answer"
returns exactly that content on a sample input with `json_mode` set. -/
theorem C1_nonempty_override_wins_witness :
    ((MockLLMProvider.mk "mock-model" (some "fixed answer") 0).complete
      [⟨some "user", some "search"⟩] "sys" none 1024 none true).1.content
      = "fixed answer" :=
  C1_nonempty_override_wins (MockLLMProvider.mk "mock-model" (some "fixed answer") 0)
    "fixed answer" [⟨some "user", some "search"⟩] "sys" none 1024 none true rfl
    (by decide)

/-- C2 (counterexample): a provider configured with the non-JSON override
"hello" returns content that is not syntactically valid JSON even though
`json_mode` is set, because the override takes precedence. -/
theorem C2_counterexample :
    isValidJson (((MockLLMProvider.mk "mock-model" (some "hello") 0).complete []
      "" none 1024 none true).1.content) = false := by
  decide

/-- C2 (amended): when no truthy override is configured, every input to
`complete` with `json_mode` set yields content that is syntactically valid
JSON text. -/
theorem C2_json_mode_valid :
    ∀ (self : MockLLMProvider) (ms : List Message) (sys : String)
      (ts : Option (List Tool)) (mt : Nat) (rf : Option String),
      pyTruthyOptStr self.default_response = false →
      isValidJson ((self.complete ms sys ts mt rf true).1.content) = true := by
  intro self ms sys ts mt rf h
  have hc : (self.complete ms sys ts mt rf true).1.content = jsonModeContent := by
    simp [MockLLMProvider.complete, h]
  rw [hc]
  decide

/-- Witness for C2: a freshly constructed provider in JSON mode returns valid
JSON on a sample input. -/
theorem C2_json_mode_valid_witness :
    isValidJson (((MockLLMProvider.init "mock-model" none).complete
      [⟨some "user", some "hi"⟩] "" none 1024 none true).1.content) = true :=
  C2_json_mode_valid (MockLLMProvider.init "mock-model" none)
    [⟨some "user", some "hi"⟩] "" none 1024 none rfl

/-- C5: each contract operation increments the call counter exactly once per
top-level invocation, a sequence of N such calls from a freshly constructed
provider leaves the counter at exactly N, `reset` zeroes it, and `reset`
modifies nothing but the counter. -/
theorem C5_call_counter :
    (∀ (self : MockLLMProvider) (c : ProviderCall),
        (runCall self c).call_count = self.call_count + 1)
    ∧ (∀ (model : String) (dr : Option String) (calls : List ProviderCall),
        (runCalls (MockLLMProvider.init model dr) calls).call_count = calls.length)
    ∧ (∀ self : MockLLMProvider, self.reset.call_count = 0)
    ∧ (∀ self : MockLLMProvider, self.reset.model = self.model
        ∧ self.reset.default_response = self.default_response) := by
  refine ⟨runCall_call_count, fun model dr calls => ?_, fun _ => rfl,
    fun _ => ⟨rfl, rfl⟩⟩
  rw [runCalls_call_count]
  exact Nat.zero_add calls.length

/-- C6: for both operations, `input_tokens` is the length of the
string-serialized message sequence integer-divided by 4, `output_tokens` is
the length of the returned content integer-divided by 4, and both are
non-negative. -/
theorem C6_token_accounting :
    (∀ (self : MockLLMProvider) (ms : List Message) (sys : String)
        (ts : Option (List Tool)) (mt : Nat) (rf : Option String) (jm : Bool),
        (self.complete ms sys ts mt rf jm).1.input_tokens
            = (pyStrMessages ms).length / 4
        ∧ (self.complete ms sys ts mt rf jm).1.output_tokens
            = (self.complete ms sys ts mt rf jm).1.content.length / 4
        ∧ 0 ≤ (self.complete ms sys ts mt rf jm).1.input_tokens
        ∧ 0 ≤ (self.complete ms sys ts mt rf jm).1.output_tokens)
    ∧ (∀ (self : MockLLMProvider) (ms : List Message) (sys : String)
        (ts : List Tool) (te : String → String → String) (mi : Nat),
        (self.complete_with_tools ms sys ts te mi).1.input_tokens
            = (pyStrMessages ms).length / 4
        ∧ (self.complete_with_tools ms sys ts te mi).1.output_tokens
            = (self.complete_with_tools ms sys ts te mi).1.content.length / 4
        ∧ 0 ≤ (self.complete_with_tools ms sys ts te mi).1.input_tokens
        ∧ 0 ≤ (self.complete_with_tools ms sys ts te mi).1.output_tokens) :=
  ⟨fun _ _ _ _ _ _ _ => ⟨rfl, rfl, Nat.zero_le _, Nat.zero_le _⟩,
   fun _ _ _ _ _ _ => ⟨rfl, rfl, Nat.zero_le _, Nat.zero_le _⟩⟩

/-- C3: when the combined lowercased text contains both "search" and "summar",
the classifier returns the "search" canned response and never the "summar"
one; and in general the classifier agrees with the spec-side priority table,
in which the earliest listed matching category wins. -/
theorem C3_priority_order :
    (∀ (cc : Nat) (u s : String),
        pyIn "search" (pyLower (u ++ s)) = true →
        pyIn "summar" (pyLower (u ++ s)) = true →
        generate_contextual_response cc u s = searchResponse
        ∧ generate_contextual_response cc u s ≠ summarResponse)
    ∧ (∀ (cc : Nat) (u s : String),
        generate_contextual_response cc u s = specClassify cc u s) := by
  constructor
  · intro cc u s h1 _h2
    have hg : generate_contextual_response cc u s = searchResponse := by
      simp [generate_contextual_response, h1]
    refine ⟨hg, ?_⟩
    rw [hg]
    decide
  · intro cc u s
    simp only [generate_contextual_response, specClassify, specCategories]
    cases h1 : pyIn "search" (pyLower (u ++ s)) <;>
      cases h2 : pyIn "summar" (pyLower (u ++ s)) <;>
      cases h3 : pyIn "parse" (pyLower (u ++ s)) <;>
      cases h4 : pyIn "extract" (pyLower (u ++ s)) <;>
      cases h5 : pyIn "evaluat" (pyLower (u ++ s)) <;>
      cases h6 : pyIn "quality" (pyLower (u ++ s)) <;>
      cases h7 : pyIn "write" (pyLower (u ++ s)) <;>
      cases h8 : pyIn "report" (pyLower (u ++ s)) <;>
      simp [List.find?, h1, h2, h3, h4, h5, h6, h7, h8]

/-- Witness for C3: a text containing both "search" and "summar" triggers the
search category. -/
theorem C3_priority_order_witness :
    generate_contextual_response 5 "please search and summarize this" ""
        = searchResponse
    ∧ generate_contextual_response 5 "please search and summarize this" ""
        ≠ summarResponse :=
  C3_priority_order.1 5 "please search and summarize this" "" (by decide) (by decide)

/-- C4 (counterexample): a tool whose name contains a backslash is rendered
escaped by the list serialization, so the returned content does not contain
that tool name as a substring — the content does not reference the names of
all offered tools for every input. -/
theorem C4_counterexample :
    pyIn "a\\b" (((MockLLMProvider.mk "mock-model" none 0).complete_with_tools []
      "" [⟨"a\\b", ""⟩] (fun _ _ => "") 10).1.content) = false := by
  decide

/-- C4 (amended): for every input whose tool names consist of printable ASCII
characters other than backslash and quotes, `complete_with_tools` returns a
single result whose content contains every offered tool name, whose
stop reason is "end_turn", with exactly one counter increment for the whole
call, and with a result that does not depend on the supplied tool executor
(the executor is never invoked). -/
theorem C4_tools_ack :
    ∀ (self : MockLLMProvider) (ms : List Message) (sys : String)
      (tools : List Tool) (te : String → String → String) (mi : Nat),
      (∀ t ∈ tools, plainName t.name = true) →
      ((∀ t ∈ tools,
          pyIn t.name ((self.complete_with_tools ms sys tools te mi).1.content) = true)
        ∧ (self.complete_with_tools ms sys tools te mi).1.stop_reason = "end_turn"
        ∧ (self.complete_with_tools ms sys tools te mi).2.call_count
            = self.call_count + 1
        ∧ ∀ te2 : String → String → String,
            self.complete_with_tools ms sys tools te2 mi
              = self.complete_with_tools ms sys tools te mi) := by
  intro self ms sys tools te mi hplain
  refine ⟨?_, rfl, rfl, fun _ => rfl⟩
  intro t ht
  have hne : tools.isEmpty = false := by
    cases tools
    · cases ht
    · rfl
  have hcontent : ((self.complete_with_tools ms sys tools te mi).1.content)
      = "[Mock] Processed with tools: " ++ pyStrList (tools.map Tool.name) ++
        ". Context: " ++ lastUserMessageTrunc ms ++ "..." := by
    simp [MockLLMProvider.complete_with_tools, hne]
  rw [hcontent]
  have h1 : t.name.data <:+: (pyReprStr t.name).data := by
    rw [pyReprStr_plain (hplain t ht)]
    exact ⟨[squote], [squote], by simp⟩
  have h2 : (pyReprStr t.name).data
      <:+: (pyJoin ", " ((tools.map Tool.name).map pyReprStr)).data :=
    infix_pyJoin ", " (List.mem_map_of_mem pyReprStr (List.mem_map_of_mem Tool.name ht))
  have h3 : (pyJoin ", " ((tools.map Tool.name).map pyReprStr)).data
      <:+: (pyStrList (tools.map Tool.name)).data := by
    refine ⟨("[" : String).data, ("]" : String).data, ?_⟩
    simp [pyStrList, String.data_append]
  have h4 : (pyStrList (tools.map Tool.name)).data
      <:+: ("[Mock] Processed with tools: " ++ pyStrList (tools.map Tool.name) ++
        ". Context: " ++ lastUserMessageTrunc ms ++ "...").data := by
    refine ⟨("[Mock] Processed with tools: " : String).data,
      (". Context: " ++ lastUserMessageTrunc ms ++ "...").data, ?_⟩
    simp [String.data_append, List.append_assoc]
  exact decide_eq_true (((h1.trans h2).trans h3).trans h4)

/-- Witness for C4: with two plainly named tools, both names occur in the
content, the stop reason is terminal, and one increment happened. -/
theorem C4_tools_ack_witness :
    pyIn "search_web" (((MockLLMProvider.init "mock-model" none).complete_with_tools
      [⟨some "user", some "hi"⟩] "" [⟨"search_web", ""⟩, ⟨"calculator", ""⟩]
      (fun _ _ => "") 10).1.content) = true
    ∧ pyIn "calculator" (((MockLLMProvider.init "mock-model" none).complete_with_tools
      [⟨some "user", some "hi"⟩] "" [⟨"search_web", ""⟩, ⟨"calculator", ""⟩]
      (fun _ _ => "") 10).1.content) = true
    ∧ ((MockLLMProvider.init "mock-model" none).complete_with_tools
      [⟨some "user", some "hi"⟩] "" [⟨"search_web", ""⟩, ⟨"calculator", ""⟩]
      (fun _ _ => "") 10).1.stop_reason = "end_turn"
    ∧ ((MockLLMProvider.init "mock-model" none).complete_with_tools
      [⟨some "user", some "hi"⟩] "" [⟨"search_web", ""⟩, ⟨"calculator", ""⟩]
      (fun _ _ => "") 10).2.call_count = 1 := by
  have h := C4_tools_ack (MockLLMProvider.init "mock-model" none)
    [⟨some "user", some "hi"⟩] "" [⟨"search_web", ""⟩, ⟨"calculator", ""⟩]
    (fun _ _ => "") 10 (by decide)
  exact ⟨h.1 ⟨"search_web", ""⟩ (by simp), h.1 ⟨"calculator", ""⟩ (by simp),
    h.2.1, h.2.2.1⟩

/-- C7: with no truthy override and `json_mode` false, the returned content is
the classification of exactly the content of the most recent message with role
"user" (scanning from the end, empty string when the content key is absent)
concatenated with the system string; when no message carries that role the
empty string is used and no error occurs. -/
theorem C7_context_extraction :
    ∀ (self : MockLLMProvider) (ms : List Message) (sys : String)
      (ts : Option (List Tool)) (mt : Nat) (rf : Option String),
      pyTruthyOptStr self.default_response = false →
      ((self.complete ms sys ts mt rf false).1.content
          = generate_contextual_response (self.call_count + 1) (lastUserMessage ms) sys
        ∧ (∀ m : Message, ms.reverse.find? (fun x => x.role == some "user") = some m →
            lastUserMessage ms = m.content.getD "")
        ∧ ((∀ m ∈ ms, m.role ≠ some "user") → lastUserMessage ms = "")) := by
  intro self ms sys ts mt rf h
  refine ⟨by simp [MockLLMProvider.complete, h], ?_, ?_⟩
  · intro m hm
    simp [lastUserMessage, hm]
  · intro hall
    have hf : ms.reverse.find? (fun x => x.role == some "user") = none := by
      apply List.find?_eq_none.mpr
      intro x hx
      simp only [beq_iff_eq]
      exact hall x (List.mem_reverse.mp hx)
    simp [lastUserMessage, hf]

/-- Witness for C7: the latest of two user messages is the one classified. -/
theorem C7_context_extraction_witness :
    ((MockLLMProvider.init "mock-model" none).complete
      [⟨some "user", some "old"⟩, ⟨some "assistant", some "mid"⟩,
       ⟨some "user", some "search now"⟩] "sys" none 1024 none false).1.content
      = generate_contextual_response 1
          (lastUserMessage [⟨some "user", some "old"⟩, ⟨some "assistant", some "mid"⟩,
            ⟨some "user", some "search now"⟩]) "sys" :=
  (C7_context_extraction (MockLLMProvider.init "mock-model" none)
    [⟨some "user", some "old"⟩, ⟨some "assistant", some "mid"⟩,
     ⟨some "user", some "search now"⟩] "sys" none 1024 none rfl).1

/-- C8: `complete` is a total function of its inputs — for every message
sequence (empty, user-less, or content-less included), system string, and
optional tool set it returns a well-formed result: a terminal stop reason from
the closed set, the echoed model name, and non-empty content.  The embedding
is total by construction, mirroring the absence of any raising path in the
source. -/
theorem C8_total_wellformed :
    ∀ (self : MockLLMProvider) (ms : List Message) (sys : String)
      (ts : Option (List Tool)) (mt : Nat) (rf : Option String) (jm : Bool),
      (self.complete ms sys ts mt rf jm).1.stop_reason
          ∈ ["end_turn", "tool_use", "max_tokens"]
      ∧ (self.complete ms sys ts mt rf jm).1.model = self.model
      ∧ (self.complete ms sys ts mt rf jm).1.content ≠ "" := by
  intro self ms sys ts mt rf jm
  refine ⟨by simp [MockLLMProvider.complete], rfl, ?_⟩
  by_cases h : pyTruthyOptStr self.default_response = true
  · cases hd : self.default_response with
    | none => rw [hd] at h; exact absurd h (by decide)
    | some d =>
      rw [hd] at h
      simp only [pyTruthyOptStr, decide_eq_true_eq] at h
      simp [MockLLMProvider.complete, hd, pyTruthyOptStr, h]
  · have hf : pyTruthyOptStr self.default_response = false :=
      Bool.eq_false_iff.mpr h
    have hc : (self.complete ms sys ts mt rf jm).1.content
        = (if jm then jsonModeContent
           else generate_contextual_response (self.call_count + 1)
             (lastUserMessage ms) sys) := by
      simp [MockLLMProvider.complete, hf]
    rw [hc]
    cases jm
    · exact gen_ne_empty (self.call_count + 1) (lastUserMessage ms) sys
    · show jsonModeContent ≠ ""
      decide

/-- C9: with no override, two invocations of `complete` with identical
arguments yield identical content and output token counts, except in the
no-match fallback branch, where the contents embed the two distinct call
counts and therefore differ. -/
theorem C9_idempotence :
    ∀ (self : MockLLMProvider) (ms : List Message) (sys : String)
      (ts : Option (List Tool)) (mt : Nat) (rf : Option String) (jm : Bool),
      pyTruthyOptStr self.default_response = false →
      ((¬(jm = false
            ∧ matchesKeyword (pyLower (lastUserMessage ms ++ sys)) = false) →
          (self.complete ms sys ts mt rf jm).1.content
              = ((self.complete ms sys ts mt rf jm).2.complete ms sys ts mt rf
                  jm).1.content
            ∧ (self.complete ms sys ts mt rf jm).1.output_tokens
              = ((self.complete ms sys ts mt rf jm).2.complete ms sys ts mt rf
                  jm).1.output_tokens)
        ∧ ((jm = false
            ∧ matchesKeyword (pyLower (lastUserMessage ms ++ sys)) = false) →
          (self.complete ms sys ts mt rf jm).1.content
            ≠ ((self.complete ms sys ts mt rf jm).2.complete ms sys ts mt rf
                jm).1.content)) := by
  intro self ms sys ts mt rf jm h
  have hc1 : (self.complete ms sys ts mt rf jm).1.content
      = (if jm then jsonModeContent
         else generate_contextual_response (self.call_count + 1)
           (lastUserMessage ms) sys) := by
    simp [MockLLMProvider.complete, h]
  have hc2 : ((self.complete ms sys ts mt rf jm).2.complete ms sys ts mt rf
      jm).1.content
      = (if jm then jsonModeContent
         else generate_contextual_response (self.call_count + 1 + 1)
           (lastUserMessage ms) sys) := by
    simp [MockLLMProvider.complete, h]
  have hout1 : (self.complete ms sys ts mt rf jm).1.output_tokens
      = (self.complete ms sys ts mt rf jm).1.content.length / 4 := rfl
  have hout2 : ((self.complete ms sys ts mt rf jm).2.complete ms sys ts mt rf
      jm).1.output_tokens
      = ((self.complete ms sys ts mt rf jm).2.complete ms sys ts mt rf
          jm).1.content.length / 4 := rfl
  constructor
  · intro hne
    have hcc : (self.complete ms sys ts mt rf jm).1.content
        = ((self.complete ms sys ts mt rf jm).2.complete ms sys ts mt rf
            jm).1.content := by
      rw [hc1, hc2]
      cases jm with
      | true => rfl
      | false =>
        have hmk : matchesKeyword (pyLower (lastUserMessage ms ++ sys))
            = true := by
          rcases Bool.eq_false_or_eq_true
            (matchesKeyword (pyLower (lastUserMessage ms ++ sys))) with hx | hx
          · exact hx
          · exact absurd ⟨rfl, hx⟩ hne
        exact gen_eq_of_matches hmk (self.call_count + 1) (self.call_count + 1 + 1)
    exact ⟨hcc, by rw [hout1, hout2, hcc]⟩
  · rintro ⟨hjm, hmk⟩
    subst hjm
    rw [hc1, hc2]
    simp only [Bool.false_eq_true, if_false]
    rw [gen_eq_fallback hmk, gen_eq_fallback hmk]
    exact fallbackResponse_ne (by omega)

/-- Witness for C9: on unclassifiable input the two consecutive contents
differ (they embed call counts 1 and 2). -/
theorem C9_idempotence_witness :
    ((MockLLMProvider.init "mock-model" none).complete [⟨some "user", some "xyz"⟩]
      "" none 1024 none false).1.content
      ≠ (((MockLLMProvider.init "mock-model" none).complete
          [⟨some "user", some "xyz"⟩] "" none 1024 none false).2.complete
          [⟨some "user", some "xyz"⟩] "" none 1024 none false).1.content :=
  (C9_idempotence (MockLLMProvider.init "mock-model" none)
    [⟨some "user", some "xyz"⟩] "" none 1024 none false rfl).2 ⟨rfl, by decide⟩

/-- C10: an override configured as the empty string is falsy and therefore
ignored: `complete` then behaves exactly as with no override — the fixed JSON
object under `json_mode`, the classified contextual response otherwise, and
never the empty-string override itself. -/
theorem C10_empty_override_ignored :
    ∀ (model : String) (cc : Nat) (ms : List Message) (sys : String)
      (ts : Option (List Tool)) (mt : Nat) (rf : Option String) (jm : Bool),
      ((MockLLMProvider.mk model (some "") cc).complete ms sys ts mt rf jm).1
          = ((MockLLMProvider.mk model none cc).complete ms sys ts mt rf jm).1
      ∧ ((MockLLMProvider.mk model (some "") cc).complete ms sys ts mt rf jm).1.content
          = (if jm then jsonModeContent
             else generate_contextual_response (cc + 1) (lastUserMessage ms) sys)
      ∧ ((MockLLMProvider.mk model (some "") cc).complete ms sys ts mt rf
          jm).1.content ≠ "" := by
  intro model cc ms sys ts mt rf jm
  refine ⟨rfl, rfl, ?_⟩
  have hc : ((MockLLMProvider.mk model (some "") cc).complete ms sys ts mt rf
      jm).1.content
      = (if jm then jsonModeContent
         else generate_contextual_response (cc + 1) (lastUserMessage ms) sys) := rfl
  rw [hc]
  cases jm
  · exact gen_ne_empty (cc + 1) (lastUserMessage ms) sys
  · show jsonModeContent ≠ ""
    decide
